import Mathlib

/-!
# GoGPU: the NVIDIA monitor (`internal/nvidia/gpu_nvidia_windows.go`)

A shallow embedding of `NVGPUMonitor`: construction (`NewNVGPUMonitor`),
`DeviceCount`, the five telemetry accessors and `Close`.

* The vendor binding `nvml-go` is an external collaborator.  It is taken as a
  parameter: a deterministic state machine `Vendor σ` whose entry points map a
  vendor state to a Go result tuple and a successor state.  Entry points are
  assumed to return (they do not fault).
* Every vendor call made by the monitor is appended to a log kept next to the
  vendor state (`World`), so that "exactly one query", "Shutdown once" and
  "no handle query" are statements about that log.
* Go's `int` is taken to be 64 bits wide (windows/amd64), so `int(count)` is
  exact for every `uint32` `count`; `uint32(x)` is `x % 2^32`.
* Go pointers and `error` interface values are `Option`s (`none` is `nil`).
-/

namespace GoGPU

/-! ## Go values -/

/-- Go's `uint32`. -/
abbrev Uint32 := Fin 4294967296

/-- The conversion `uint32(n)` of a non-negative integer. -/
def toUint32 (n : Nat) : Uint32 := ⟨n % 4294967296, Nat.mod_lt n (by decide)⟩

/-- An opaque device handle (`nvml.Device`). -/
abbrev Device := Nat

/-- The target of a non-nil `*nvml.API`. -/
abbrev API := Nat

/-- A non-nil Go `error` value, observed through `Error()` and `Unwrap()`. -/
inductive GoError where
  | base (msg : String) : GoError
  | wrap (msg : String) (inner : GoError) : GoError
  deriving DecidableEq, Repr

/-- The method `Error()`. -/
def GoError.Error : GoError → String
  | .base msg => msg
  | .wrap msg _ => msg

/-- The method `Unwrap()` (`errors.Unwrap`): the wrapped error, if any. -/
def GoError.Unwrap : GoError → Option GoError
  | .base _ => none
  | .wrap _ inner => some inner

/-- The verb `%d` on a non-negative integer. -/
def fmtD (n : Nat) : String := toString n

/-- The verb `%v` on an `error` interface value. -/
def fmtV : Option GoError → String
  | none => "<nil>"
  | some e => e.Error

/-- The call `fmt.Errorf(pre + "%w", err)`: a non-nil operand is wrapped; a nil
operand is a bad verb, printed as `%!w(<nil>)`, and nothing is wrapped. -/
def ErrorfW (pre : String) (err : Option GoError) : GoError :=
  match err with
  | some e => .wrap (pre ++ e.Error) e
  | none => .base (pre ++ "%!w(<nil>)")

/-- The call `fmt.Errorf(pre + "%v", err)`: the operand is only printed. -/
def ErrorfV (pre : String) (err : Option GoError) : GoError :=
  .base (pre ++ fmtV err)

/-- The result of `DeviceGetUtilizationRates` (`nvml.Utilization`). -/
structure Utilization where
  GPU : Uint32
  Memory : Uint32
  deriving DecidableEq, Repr

/-- Modelled from the spec: the sensor selector type of `nvml-go`, which is not
under `src/`.  The monitor only ever passes the "GPU" selector,
`nvml.TemperatureGPU`; `Other` stands for the remaining selectors. -/
inductive TemperatureSensors where
  | TemperatureGPU : TemperatureSensors
  | Other (code : Nat) : TemperatureSensors
  deriving DecidableEq, Repr

/-! ## The vendor interface -/

/-- The entry points of `nvml-go` used by the monitor.  Each returns Go's result
tuple (values, then the `error`) and the successor vendor state.  The first
argument of a method is its receiver, a possibly nil `*nvml.API`. -/
structure Vendor (σ : Type) where
  New : String → σ → (Option API × Option GoError) × σ
  Init : Option API → σ → Option GoError × σ
  Shutdown : Option API → σ → Option GoError × σ
  DeviceGetCount : Option API → σ → (Uint32 × Option GoError) × σ
  DeviceGetHandleByIndex : Option API → Uint32 → σ → (Device × Option GoError) × σ
  DeviceGetUtilizationRates : Option API → Device → σ → (Utilization × Option GoError) × σ
  DeviceGetEncoderUtilization : Option API → Device → σ → (Uint32 × Uint32 × Option GoError) × σ
  DeviceGetDecoderUtilization : Option API → Device → σ → (Uint32 × Uint32 × Option GoError) × σ
  DeviceGetTemperature :
    Option API → Device → TemperatureSensors → σ → (Uint32 × Option GoError) × σ
  DeviceGetFanSpeed : Option API → Device → σ → (Uint32 × Option GoError) × σ

/-- A call into the vendor interface, with its receiver and arguments. -/
inductive Call where
  | New (dllPath : String) : Call
  | Init (recv : Option API) : Call
  | Shutdown (recv : Option API) : Call
  | DeviceGetCount (recv : Option API) : Call
  | DeviceGetHandleByIndex (recv : Option API) (index : Uint32) : Call
  | DeviceGetUtilizationRates (recv : Option API) (device : Device) : Call
  | DeviceGetEncoderUtilization (recv : Option API) (device : Device) : Call
  | DeviceGetDecoderUtilization (recv : Option API) (device : Device) : Call
  | DeviceGetTemperature (recv : Option API) (device : Device) (sensor : TemperatureSensors) : Call
  | DeviceGetFanSpeed (recv : Option API) (device : Device) : Call
  deriving DecidableEq, Repr

/-- One logged vendor call and the `error` it returned. -/
structure Event where
  call : Call
  err : Option GoError
  deriving DecidableEq, Repr

/-- The vendor state together with the log of the calls made so far. -/
structure World (σ : Type) where
  state : σ
  log : List Event

variable {σ : Type}

/-- Records a call and its outcome, and moves to the successor vendor state. -/
def World.record (w : World σ) (c : Call) (err : Option GoError) (s : σ) : World σ :=
  { state := s, log := w.log ++ [{ call := c, err := err }] }

/-- The call `nvml.New(dllPath)`. -/
def callNew (V : Vendor σ) (dllPath : String) (w : World σ) :
    (Option API × Option GoError) × World σ :=
  let r := V.New dllPath w.state
  (r.1, w.record (.New dllPath) r.1.2 r.2)

/-- The call `recv.Init()`. -/
def callInit (V : Vendor σ) (recv : Option API) (w : World σ) : Option GoError × World σ :=
  let r := V.Init recv w.state
  (r.1, w.record (.Init recv) r.1 r.2)

/-- The call `recv.Shutdown()`. -/
def callShutdown (V : Vendor σ) (recv : Option API) (w : World σ) : Option GoError × World σ :=
  let r := V.Shutdown recv w.state
  (r.1, w.record (.Shutdown recv) r.1 r.2)

/-- The call `recv.DeviceGetCount()`. -/
def callDeviceGetCount (V : Vendor σ) (recv : Option API) (w : World σ) :
    (Uint32 × Option GoError) × World σ :=
  let r := V.DeviceGetCount recv w.state
  (r.1, w.record (.DeviceGetCount recv) r.1.2 r.2)

/-- The call `recv.DeviceGetHandleByIndex(index)`. -/
def callDeviceGetHandleByIndex (V : Vendor σ) (recv : Option API) (index : Uint32)
    (w : World σ) : (Device × Option GoError) × World σ :=
  let r := V.DeviceGetHandleByIndex recv index w.state
  (r.1, w.record (.DeviceGetHandleByIndex recv index) r.1.2 r.2)

/-- The call `recv.DeviceGetUtilizationRates(device)`. -/
def callDeviceGetUtilizationRates (V : Vendor σ) (recv : Option API) (device : Device)
    (w : World σ) : (Utilization × Option GoError) × World σ :=
  let r := V.DeviceGetUtilizationRates recv device w.state
  (r.1, w.record (.DeviceGetUtilizationRates recv device) r.1.2 r.2)

/-- The call `recv.DeviceGetEncoderUtilization(device)`. -/
def callDeviceGetEncoderUtilization (V : Vendor σ) (recv : Option API) (device : Device)
    (w : World σ) : (Uint32 × Uint32 × Option GoError) × World σ :=
  let r := V.DeviceGetEncoderUtilization recv device w.state
  (r.1, w.record (.DeviceGetEncoderUtilization recv device) r.1.2.2 r.2)

/-- The call `recv.DeviceGetDecoderUtilization(device)`. -/
def callDeviceGetDecoderUtilization (V : Vendor σ) (recv : Option API) (device : Device)
    (w : World σ) : (Uint32 × Uint32 × Option GoError) × World σ :=
  let r := V.DeviceGetDecoderUtilization recv device w.state
  (r.1, w.record (.DeviceGetDecoderUtilization recv device) r.1.2.2 r.2)

/-- The call `recv.DeviceGetTemperature(device, sensor)`. -/
def callDeviceGetTemperature (V : Vendor σ) (recv : Option API) (device : Device)
    (sensor : TemperatureSensors) (w : World σ) : (Uint32 × Option GoError) × World σ :=
  let r := V.DeviceGetTemperature recv device sensor w.state
  (r.1, w.record (.DeviceGetTemperature recv device sensor) r.1.2 r.2)

/-- The call `recv.DeviceGetFanSpeed(device)`. -/
def callDeviceGetFanSpeed (V : Vendor σ) (recv : Option API) (device : Device)
    (w : World σ) : (Uint32 × Option GoError) × World σ :=
  let r := V.DeviceGetFanSpeed recv device w.state
  (r.1, w.record (.DeviceGetFanSpeed recv device) r.1.2 r.2)

/-! ## The monitor -/

/-- The struct `NVGPUMonitor`. -/
structure NVGPUMonitor where
  nvml : Option API
  devices : List Device
  devicecount : Uint32
  deriving DecidableEq, Repr

/-- How a call of a method that indexes the device slice ends: it returns its
results, or the index expression faults (a Go run-time panic). -/
inductive Outcome (α : Type) where
  | returned (results : α) : Outcome α
  | indexOutOfRange (index : Nat) (length : Nat) : Outcome α
  deriving DecidableEq, Repr

/-- The handle-enumeration loop of `NewNVGPUMonitor`,
`for i := 0; i <= int(count); i++ { ... }`, entered with loop variable `i`.
The `int` variable `i` never leaves `0 .. count + 1`, so it is a `Nat`, and
`int(count)` is `count.val`; the argument of the fetch is `uint32(i)`. -/
def enumerate (V : Vendor σ) (count : Uint32) (i : Nat) (monitor : NVGPUMonitor)
    (w : World σ) : (Option NVGPUMonitor × Option GoError) × World σ :=
  if i ≤ count.val then
    let r := callDeviceGetHandleByIndex V monitor.nvml (toUint32 i) w
    let device := r.1.1
    let err := r.1.2
    if err.isSome then
      ((none, some (ErrorfV ("Failed to get device " ++ fmtD i ++ ": ") err)), r.2)
    else
      enumerate V count (i + 1) { monitor with devices := monitor.devices ++ [device] } r.2
  else
    ((some monitor, none), w)
termination_by count.val + 1 - i

/-- The constructor `NewNVGPUMonitor(dllPath)`; the result is Go's pair of a
possibly nil `*NVGPUMonitor` and a possibly nil `error`. -/
def NewNVGPUMonitor (V : Vendor σ) (dllPath : String) (w : World σ) :
    (Option NVGPUMonitor × Option GoError) × World σ :=
  let monitor : NVGPUMonitor := { nvml := none, devices := [], devicecount := 0 }
  let r := callNew V dllPath w
  let n := r.1.1
  let err := r.1.2
  if err.isSome then
    ((none, some (ErrorfW "failed to load NVML: " err)), r.2)
  else
    let monitor := { monitor with nvml := n }
    let r := callInit V monitor.nvml r.2
    if r.1.isSome then
      let r := callShutdown V monitor.nvml r.2
      -- this `err` shadows the result of `Init`
      let err := r.1
      if err.isSome then
        ((none, err), r.2)
      else
        ((none, some (ErrorfW "failed to initialize NVML: " err)), r.2)
    else
      let r := callDeviceGetCount V monitor.nvml r.2
      let count := r.1.1
      let err := r.1.2
      if err.isSome then
        ((none, some (ErrorfV "Failed to get device count: " err)), r.2)
      else
        let monitor := { monitor with devicecount := count }
        enumerate V count 0 monitor r.2

/-- The method `DeviceCount()`: `uint32(len(m.devices))`. -/
def DeviceCount (m : NVGPUMonitor) : Uint32 := toUint32 m.devices.length

/-- The method `GetGPUUtilization(index)`. -/
def GetGPUUtilization (V : Vendor σ) (m : NVGPUMonitor) (index : Uint32) (w : World σ) :
    Outcome (Uint32 × Uint32 × Option GoError) × World σ :=
  match m.devices[index.val]? with
  | none => (.indexOutOfRange index.val m.devices.length, w)
  | some device =>
    let r := callDeviceGetUtilizationRates V m.nvml device w
    let utilization := r.1.1
    let err := r.1.2
    if err.isSome then
      (.returned (0, 0, some (ErrorfW
        ("failed to get gpu utilization of gpu " ++ fmtD index.val ++ ": ") err)), r.2)
    else
      (.returned (utilization.GPU, utilization.Memory, none), r.2)

/-- The method `GetEncoderUtilization(index)`. -/
def GetEncoderUtilization (V : Vendor σ) (m : NVGPUMonitor) (index : Uint32) (w : World σ) :
    Outcome (Uint32 × Uint32 × Option GoError) × World σ :=
  match m.devices[index.val]? with
  | none => (.indexOutOfRange index.val m.devices.length, w)
  | some device =>
    let r := callDeviceGetEncoderUtilization V m.nvml device w
    let utilization := r.1.1
    let samplingPeriodUs := r.1.2.1
    let err := r.1.2.2
    if err.isSome then
      (.returned (0, 0, some (ErrorfW
        ("failed to get encoder utilization of gpu " ++ fmtD index.val ++ ": ") err)), r.2)
    else
      (.returned (utilization, samplingPeriodUs, none), r.2)

/-- The method `GetDecoderUtilization(index)`. -/
def GetDecoderUtilization (V : Vendor σ) (m : NVGPUMonitor) (index : Uint32) (w : World σ) :
    Outcome (Uint32 × Uint32 × Option GoError) × World σ :=
  match m.devices[index.val]? with
  | none => (.indexOutOfRange index.val m.devices.length, w)
  | some device =>
    let r := callDeviceGetDecoderUtilization V m.nvml device w
    let utilization := r.1.1
    let samplingPeriodUs := r.1.2.1
    let err := r.1.2.2
    if err.isSome then
      (.returned (0, 0, some (ErrorfW
        ("failed to get decoder utilization of gpu " ++ fmtD index.val ++ ": ") err)), r.2)
    else
      (.returned (utilization, samplingPeriodUs, none), r.2)

/-- The method `GetTemperature(index)`. -/
def GetTemperature (V : Vendor σ) (m : NVGPUMonitor) (index : Uint32) (w : World σ) :
    Outcome (Uint32 × Option GoError) × World σ :=
  match m.devices[index.val]? with
  | none => (.indexOutOfRange index.val m.devices.length, w)
  | some device =>
    let r := callDeviceGetTemperature V m.nvml device .TemperatureGPU w
    let temp := r.1.1
    let err := r.1.2
    if err.isSome then
      (.returned (0, some (ErrorfW
        ("failed to get temperature of gpu " ++ fmtD index.val ++ ": ") err)), r.2)
    else
      (.returned (temp, none), r.2)

/-- The method `GetFanSpeed(index)`. -/
def GetFanSpeed (V : Vendor σ) (m : NVGPUMonitor) (index : Uint32) (w : World σ) :
    Outcome (Uint32 × Option GoError) × World σ :=
  match m.devices[index.val]? with
  | none => (.indexOutOfRange index.val m.devices.length, w)
  | some device =>
    let r := callDeviceGetFanSpeed V m.nvml device w
    let speed := r.1.1
    let err := r.1.2
    if err.isSome then
      (.returned (0, some (ErrorfW
        ("failed to get fan speed of gpu " ++ fmtD index.val ++ ": ") err)), r.2)
    else
      (.returned (speed, none), r.2)

/-- The method `Close()`.  It has a pointer receiver, so the monitor after the
call is part of the result (no field is assigned). -/
def Close (V : Vendor σ) (m : NVGPUMonitor) (w : World σ) :
    (Option GoError × NVGPUMonitor) × World σ :=
  if m.nvml.isSome then
    let r := callShutdown V m.nvml w
    let err := r.1
    if err.isSome then
      ((some (ErrorfW "failed to shutdown NVML: " err), m), r.2)
    else
      ((none, m), r.2)
  else
    ((none, m), w)


/-! ## Specification vocabulary -/

/-- The log entry of a handle fetch at index `j` that succeeded. -/
def fetchOk (recv : Option API) (j : Nat) : Event :=
  { call := .DeviceGetHandleByIndex recv (toUint32 j), err := none }

/-- The log entry of a handle fetch at index `k` that failed with `e`. -/
def fetchFailed (recv : Option API) (k : Nat) (e : GoError) : Event :=
  { call := .DeviceGetHandleByIndex recv (toUint32 k), err := some e }

/-- The vendor state reached from `s` by the `j` consecutive handle fetches at
indices `i, i + 1, ..., i + j - 1`: the state in which the enumeration loop
fetches index `i + j`. -/
def stateAfterFetches (V : Vendor σ) (recv : Option API) : Nat → σ → Nat → σ
  | _, s, 0 => s
  | i, s, j + 1 =>
    stateAfterFetches V recv (i + 1) (V.DeviceGetHandleByIndex recv (toUint32 i) s).2 j

/-- A vendor interface that, whenever it reports a device count, rejects the
handle query for every index at or above that count. -/
def Conforming (V : Vendor σ) : Prop :=
  ∀ (recv : Option API) (s : σ), (V.DeviceGetCount recv s).1.2 = none →
    ∀ (recv' : Option API) (index : Uint32) (s' : σ),
      (V.DeviceGetCount recv s).1.1.val ≤ index.val →
        (V.DeviceGetHandleByIndex recv' index s').1.2.isSome = true

/-- The returned `error` is a query failure of the named accessor on device
`index` caused by the vendor error `cause`: it is non-nil, its message names
the accessor and the index, and it wraps `cause`. -/
def QueryFailure (err : Option GoError) (accessor : String) (index : Nat)
    (cause : GoError) : Prop :=
  ∃ q, err = some q ∧ q.Unwrap = some cause ∧
    q.Error = "failed to get " ++ accessor ++ " of gpu " ++ fmtD index ++ ": " ++ cause.Error

/-! ## Scripted vendor interfaces (concrete inputs) -/

/-- The script of a mocked vendor interface. -/
structure Script where
  loadErr : Option GoError
  initErr : Option GoError
  shutdownErr : Nat → Option GoError
  count : Uint32
  countErr : Option GoError
  limit : Nat
  queryErr : Option GoError

/-- The vendor interface that follows a script.  Its state is the number of
`Shutdown` calls made so far; index `i` is accepted, with handle `100 + i`,
exactly when `i < limit`. -/
def scripted (c : Script) : Vendor Nat where
  New := fun _ s => ((some 1, c.loadErr), s)
  Init := fun _ s => (c.initErr, s)
  Shutdown := fun _ s => (c.shutdownErr s, s + 1)
  DeviceGetCount := fun _ s => ((c.count, c.countErr), s)
  DeviceGetHandleByIndex := fun _ i s =>
    if i.val < c.limit then ((100 + i.val, none), s)
    else ((0, some (.base "Invalid Argument")), s)
  DeviceGetUtilizationRates := fun _ _ s => (({ GPU := 42, Memory := 17 }, c.queryErr), s)
  DeviceGetEncoderUtilization := fun _ _ s => ((55, 1000, c.queryErr), s)
  DeviceGetDecoderUtilization := fun _ _ s => ((33, 2000, c.queryErr), s)
  DeviceGetTemperature := fun _ _ _ s => ((65, c.queryErr), s)
  DeviceGetFanSpeed := fun _ _ s => ((30, c.queryErr), s)

/-- A driver that reports one device but also hands out a handle for index 1;
a second `Shutdown` is refused, as NVML does once it is shut down. -/
def lenientDriver : Script :=
  { loadErr := none, initErr := none,
    shutdownErr := fun s => if s = 0 then none else some (.base "Uninitialized"),
    count := 1, countErr := none, limit := 2, queryErr := none }

/-- A driver with two devices that rejects every index from 2 on. -/
def conformingDriver : Script :=
  { lenientDriver with count := 2, limit := 2 }

/-- A driver that rejects `Init`; `Shutdown` succeeds. -/
def initRejected : Script :=
  { lenientDriver with initErr := some (.base "Driver Not Loaded") }

/-- A driver that rejects `Init` and then also fails `Shutdown`. -/
def initRejectedCleanupFails : Script :=
  { initRejected with shutdownErr := fun _ => some (.base "Uninitialized") }

/-- A driver whose telemetry queries fail. -/
def queryFailing : Script :=
  { lenientDriver with queryErr := some (.base "GPU is lost") }

/-- A driver that reports `2^32 - 1` devices and accepts every index. -/
def hugeDriver : Script :=
  { lenientDriver with count := 4294967295, limit := 4294967296 }

/-- A driver with two devices whose answers depend on its state, as NVML's do:
the state says whether `Init` has been called (and `Shutdown` has not).  Before
`Init` every query is refused with "Uninitialized"; after it the count is 2,
indices 0 and 1 are accepted and every other index is rejected. -/
def gatedDriver : Vendor Bool where
  New := fun _ s => ((some 1, none), s)
  Init := fun _ _ => (none, true)
  Shutdown := fun _ _ => (none, false)
  DeviceGetCount := fun _ s =>
    if s then ((2, none), s) else ((0, some (.base "Uninitialized")), s)
  DeviceGetHandleByIndex := fun _ i s =>
    if s then
      if i.val < 2 then ((100 + i.val, none), s)
      else ((0, some (.base "Invalid Argument")), s)
    else ((0, some (.base "Uninitialized")), s)
  DeviceGetUtilizationRates := fun _ _ s =>
    if s then (({ GPU := 42, Memory := 17 }, none), s)
    else (({ GPU := 0, Memory := 0 }, some (.base "Uninitialized")), s)
  DeviceGetEncoderUtilization := fun _ _ s =>
    if s then ((55, 1000, none), s) else ((0, 0, some (.base "Uninitialized")), s)
  DeviceGetDecoderUtilization := fun _ _ s =>
    if s then ((33, 2000, none), s) else ((0, 0, some (.base "Uninitialized")), s)
  DeviceGetTemperature := fun _ _ _ s =>
    if s then ((65, none), s) else ((0, some (.base "Uninitialized")), s)
  DeviceGetFanSpeed := fun _ _ s =>
    if s then ((30, none), s) else ((0, some (.base "Uninitialized")), s)

/-- The monitor that construction over `lenientDriver` returns. -/
def lenientMonitor : NVGPUMonitor :=
  { nvml := some 1, devices := [100, 101], devicecount := 1 }

/-! ## The enumeration loop -/

theorem enumerate_done (V : Vendor σ) (count : Uint32) (i : Nat) (monitor : NVGPUMonitor)
    (w : World σ) (h : count.val < i) :
    enumerate V count i monitor w = ((some monitor, none), w) := by
  rw [enumerate, if_neg (by omega)]

theorem enumerate_fail (V : Vendor σ) (count : Uint32) (i : Nat) (monitor : NVGPUMonitor)
    (w : World σ) (h : i ≤ count.val) (e : GoError)
    (he : (V.DeviceGetHandleByIndex monitor.nvml (toUint32 i) w.state).1.2 = some e) :
    enumerate V count i monitor w
      = ((none, some (ErrorfV ("Failed to get device " ++ fmtD i ++ ": ") (some e))),
          { state := (V.DeviceGetHandleByIndex monitor.nvml (toUint32 i) w.state).2,
            log := w.log ++ [fetchFailed monitor.nvml i e] }) := by
  rw [enumerate, if_pos h]
  simp [callDeviceGetHandleByIndex, World.record, fetchFailed, he]

theorem enumerate_step (V : Vendor σ) (count : Uint32) (i : Nat) (monitor : NVGPUMonitor)
    (w : World σ) (h : i ≤ count.val)
    (he : (V.DeviceGetHandleByIndex monitor.nvml (toUint32 i) w.state).1.2 = none) :
    enumerate V count i monitor w
      = enumerate V count (i + 1)
          { monitor with devices := monitor.devices ++
              [(V.DeviceGetHandleByIndex monitor.nvml (toUint32 i) w.state).1.1] }
          { state := (V.DeviceGetHandleByIndex monitor.nvml (toUint32 i) w.state).2,
            log := w.log ++ [fetchOk monitor.nvml i] } := by
  rw [enumerate, if_pos h]
  simp [callDeviceGetHandleByIndex, World.record, fetchOk, he]

/-- The loop entered at `i` either appends one handle for each index `i..count`
and returns the monitor, or stops at the first index `k` in `i..count` whose
fetch fails and returns only the error naming `k`. -/
theorem enumerate_spec (V : Vendor σ) (count : Uint32) (i : Nat) (monitor : NVGPUMonitor)
    (w : World σ) :
    (∃ ds : List Device,
        (enumerate V count i monitor w).1
          = (some { monitor with devices := monitor.devices ++ ds }, none) ∧
        ds.length = count.val + 1 - i ∧
        (enumerate V count i monitor w).2.log
          = w.log ++ (List.range' i (count.val + 1 - i)).map (fetchOk monitor.nvml) ∧
        ∀ j, i ≤ j → j ≤ count.val →
          ∃ s, (V.DeviceGetHandleByIndex monitor.nvml (toUint32 j) s).1.2 = none) ∨
    (∃ k e0, i ≤ k ∧ k ≤ count.val ∧
        (enumerate V count i monitor w).1
          = (none, some (ErrorfV ("Failed to get device " ++ fmtD k ++ ": ") (some e0))) ∧
        (enumerate V count i monitor w).2.log
          = w.log ++ (List.range' i (k - i)).map (fetchOk monitor.nvml)
              ++ [fetchFailed monitor.nvml k e0] ∧
        (∃ s, (V.DeviceGetHandleByIndex monitor.nvml (toUint32 k) s).1.2 = some e0) ∧
        ∀ j, i ≤ j → j < k →
          ∃ s, (V.DeviceGetHandleByIndex monitor.nvml (toUint32 j) s).1.2 = none) := by
  generalize hd : count.val + 1 - i = d
  induction d generalizing i monitor w with
  | zero =>
    left
    refine ⟨[], ?_, ?_, ?_, ?_⟩
    · rw [enumerate_done V count i monitor w (by omega)]; simp
    · simp
    · rw [enumerate_done V count i monitor w (by omega)]; simp
    · intro j h1 h2; omega
  | succ d ih =>
    have hle : i ≤ count.val := by omega
    cases he : (V.DeviceGetHandleByIndex monitor.nvml (toUint32 i) w.state).1.2 with
    | some e =>
      right
      refine ⟨i, e, le_refl _, hle, ?_, ?_, ⟨w.state, he⟩, ?_⟩
      · rw [enumerate_fail V count i monitor w hle e he]
      · rw [enumerate_fail V count i monitor w hle e he]; simp
      · intro j h1 h2; omega
    | none =>
      rw [enumerate_step V count i monitor w hle he]
      have hd1 : count.val + 1 - (i + 1) = d := by omega
      rcases ih (i + 1)
          { monitor with devices := monitor.devices ++
              [(V.DeviceGetHandleByIndex monitor.nvml (toUint32 i) w.state).1.1] }
          { state := (V.DeviceGetHandleByIndex monitor.nvml (toUint32 i) w.state).2,
            log := w.log ++ [fetchOk monitor.nvml i] } hd1
        with ⟨ds, h1, h2, h3, h4⟩ | ⟨k, e0, h1, h2, h3, h4, h5, h6⟩
      · left
        refine ⟨(V.DeviceGetHandleByIndex monitor.nvml (toUint32 i) w.state).1.1 :: ds,
          ?_, ?_, ?_, ?_⟩
        · rw [h1]; simp
        · simp [h2]
        · rw [h3]; simp [List.range'_succ]
        · intro j hj1 hj2
          rcases Nat.eq_or_lt_of_le hj1 with rfl | hlt
          · exact ⟨w.state, he⟩
          · exact h4 j hlt hj2
      · right
        refine ⟨k, e0, by omega, h2, h3, ?_, h5, ?_⟩
        · rw [h4]
          have : k - i = (k - (i + 1)) + 1 := by omega
          rw [this]; simp [List.range'_succ]
        · intro j hj1 hj2
          rcases Nat.eq_or_lt_of_le hj1 with rfl | hlt
          · exact ⟨w.state, he⟩
          · exact h6 j hlt hj2

/-! ## The paths through the constructor -/

/-- The constructor takes one of five paths, decided by the vendor's answers:
load failure; `Init` failure with failed or with successful `Shutdown`;
device-count failure; or the enumeration loop. -/
theorem NewNVGPUMonitor_cases (V : Vendor σ) (dllPath : String) (w : World σ) :
    (∃ n e s1, V.New dllPath w.state = ((n, some e), s1) ∧
      NewNVGPUMonitor V dllPath w
        = ((none, some (ErrorfW "failed to load NVML: " (some e))),
            { state := s1, log := w.log ++ [{ call := .New dllPath, err := some e }] })) ∨
    (∃ n s1 e s2 c s3, V.New dllPath w.state = ((n, none), s1) ∧
      V.Init n s1 = (some e, s2) ∧ V.Shutdown n s2 = (some c, s3) ∧
      NewNVGPUMonitor V dllPath w
        = ((none, some c),
            { state := s3,
              log := w.log ++ [{ call := .New dllPath, err := none },
                { call := .Init n, err := some e }, { call := .Shutdown n, err := some c }] })) ∨
    (∃ n s1 e s2 s3, V.New dllPath w.state = ((n, none), s1) ∧
      V.Init n s1 = (some e, s2) ∧ V.Shutdown n s2 = (none, s3) ∧
      NewNVGPUMonitor V dllPath w
        = ((none, some (.base "failed to initialize NVML: %!w(<nil>)")),
            { state := s3,
              log := w.log ++ [{ call := .New dllPath, err := none },
                { call := .Init n, err := some e }, { call := .Shutdown n, err := none }] })) ∨
    (∃ n s1 s2 count e s3, V.New dllPath w.state = ((n, none), s1) ∧
      V.Init n s1 = (none, s2) ∧ V.DeviceGetCount n s2 = ((count, some e), s3) ∧
      NewNVGPUMonitor V dllPath w
        = ((none, some (ErrorfV "Failed to get device count: " (some e))),
            { state := s3,
              log := w.log ++ [{ call := .New dllPath, err := none },
                { call := .Init n, err := none },
                { call := .DeviceGetCount n, err := some e }] })) ∨
    (∃ n s1 s2 count s3, V.New dllPath w.state = ((n, none), s1) ∧
      V.Init n s1 = (none, s2) ∧ V.DeviceGetCount n s2 = ((count, none), s3) ∧
      NewNVGPUMonitor V dllPath w
        = enumerate V count 0 { nvml := n, devices := [], devicecount := count }
            { state := s3,
              log := w.log ++ [{ call := .New dllPath, err := none },
                { call := .Init n, err := none },
                { call := .DeviceGetCount n, err := none }] }) := by
  rcases hN : V.New dllPath w.state with ⟨⟨n, eN⟩, s1⟩
  cases eN with
  | some e =>
    left
    exact ⟨n, e, s1, rfl, by simp [NewNVGPUMonitor, callNew, World.record, hN]⟩
  | none =>
    right
    rcases hI : V.Init n s1 with ⟨eI, s2⟩
    cases eI with
    | some e =>
      rcases hS : V.Shutdown n s2 with ⟨eS, s3⟩
      cases eS with
      | some c =>
        left
        exact ⟨n, s1, e, s2, c, s3, rfl, hI, hS, by
          simp [NewNVGPUMonitor, callNew, callInit, callShutdown, World.record, hN, hI, hS]⟩
      | none =>
        right; left
        exact ⟨n, s1, e, s2, s3, rfl, hI, hS, by
          simp [NewNVGPUMonitor, callNew, callInit, callShutdown, World.record, hN, hI, hS,
            ErrorfW]⟩
    | none =>
      right; right
      rcases hC : V.DeviceGetCount n s2 with ⟨⟨count, eC⟩, s3⟩
      cases eC with
      | some e =>
        left
        exact ⟨n, s1, s2, count, e, s3, rfl, hI, hC, by
          simp [NewNVGPUMonitor, callNew, callInit, callDeviceGetCount, World.record, hN, hI,
            hC]⟩
      | none =>
        right
        exact ⟨n, s1, s2, count, s3, rfl, hI, hC, by
          simp [NewNVGPUMonitor, callNew, callInit, callDeviceGetCount, World.record, hN, hI,
            hC]⟩

/-! ## Construction: the failure paths of `Init` -/

/-- C3 (the code departs from the claim).  When the load succeeds, `Init` fails
with `e` and the following `Shutdown` succeeds, `NewNVGPUMonitor` calls
`Shutdown` once and returns no monitor and a non-nil error, but that error does
not carry `e`: the `err` formatted with `%w` is the shadowing result of
`Shutdown`, which is nil, so the message ends in `%!w(<nil>)` and nothing is
wrapped. -/
theorem C3_init_failure_loses_cause (V : Vendor σ) (dllPath : String) (w : World σ)
    (n : Option API) (s1 : σ) (e : GoError) (s2 s3 : σ)
    (hNew : V.New dllPath w.state = ((n, none), s1))
    (hInit : V.Init n s1 = (some e, s2))
    (hShutdown : V.Shutdown n s2 = (none, s3)) :
    NewNVGPUMonitor V dllPath w
      = ((none, some (.base "failed to initialize NVML: %!w(<nil>)")),
          { state := s3,
            log := w.log ++ [{ call := .New dllPath, err := none },
              { call := .Init n, err := some e }, { call := .Shutdown n, err := none }] }) ∧
    ∀ q, (NewNVGPUMonitor V dllPath w).1.2 = some q →
      q.Unwrap = none ∧ q.Error = "failed to initialize NVML: %!w(<nil>)" := by
  have h : NewNVGPUMonitor V dllPath w
      = ((none, some (.base "failed to initialize NVML: %!w(<nil>)")),
          { state := s3,
            log := w.log ++ [{ call := .New dllPath, err := none },
              { call := .Init n, err := some e }, { call := .Shutdown n, err := none }] }) := by
    simp [NewNVGPUMonitor, callNew, callInit, callShutdown, World.record, hNew, hInit,
      hShutdown, ErrorfW]
  refine ⟨h, ?_⟩
  intro q hq
  rw [h] at hq
  simp only [Option.some.injEq] at hq
  subst hq
  exact ⟨rfl, rfl⟩

/-- C3 at a concrete driver: `Init` fails with "Driver Not Loaded", `Shutdown`
succeeds; the returned error wraps nothing and never mentions the cause. -/
theorem C3_init_failure_loses_cause_witness :
    (NewNVGPUMonitor (scripted initRejected) "nvml.dll" { state := 0, log := [] }).1
      = (none, some (.base "failed to initialize NVML: %!w(<nil>)")) ∧
    (GoError.base "failed to initialize NVML: %!w(<nil>)").Unwrap
      ≠ some (.base "Driver Not Loaded") :=
  ⟨congrArg Prod.fst
      (C3_init_failure_loses_cause (scripted initRejected) "nvml.dll" { state := 0, log := [] }
        (some 1) 0 (.base "Driver Not Loaded") 0 1 rfl rfl rfl).1,
    by simp [GoError.Unwrap]⟩

/-- C4.  When the load succeeds, `Init` fails with `e` and the following
`Shutdown` fails with `c`, `NewNVGPUMonitor` returns no monitor and exactly `c`
(not wrapped, and not `e`), and the only vendor calls made are `New`, `Init`
and `Shutdown`: no device-count or handle query. -/
theorem C4_cleanup_error_replaces_init_error (V : Vendor σ) (dllPath : String) (w : World σ)
    (n : Option API) (s1 : σ) (e : GoError) (s2 : σ) (c : GoError) (s3 : σ)
    (hNew : V.New dllPath w.state = ((n, none), s1))
    (hInit : V.Init n s1 = (some e, s2))
    (hShutdown : V.Shutdown n s2 = (some c, s3)) :
    NewNVGPUMonitor V dllPath w
      = ((none, some c),
          { state := s3,
            log := w.log ++ [{ call := .New dllPath, err := none },
              { call := .Init n, err := some e }, { call := .Shutdown n, err := some c }] }) := by
  simp [NewNVGPUMonitor, callNew, callInit, callShutdown, World.record, hNew, hInit, hShutdown]

/-- C4 at a concrete driver: `Init` fails with "Driver Not Loaded" and
`Shutdown` with "Uninitialized"; the caller gets "Uninitialized". -/
theorem C4_cleanup_error_replaces_init_error_witness :
    NewNVGPUMonitor (scripted initRejectedCleanupFails) "nvml.dll" { state := 0, log := [] }
      = ((none, some (.base "Uninitialized")),
          { state := 1,
            log := [{ call := .New "nvml.dll", err := none },
              { call := .Init (some 1), err := some (.base "Driver Not Loaded") },
              { call := .Shutdown (some 1), err := some (.base "Uninitialized") }] }) :=
  C4_cleanup_error_replaces_init_error (scripted initRejectedCleanupFails) "nvml.dll"
    { state := 0, log := [] } (some 1) 0 (.base "Driver Not Loaded") 0 (.base "Uninitialized") 1
    rfl rfl rfl

/-! ## Teardown -/

theorem Close_monitor (V : Vendor σ) (m : NVGPUMonitor) (w : World σ) :
    (Close V m w).1.2 = m := by
  simp only [Close]
  split
  · split <;> rfl
  · rfl

theorem Close_nil (V : Vendor σ) (m : NVGPUMonitor) (w : World σ) (h : m.nvml = none) :
    Close V m w = ((none, m), w) := by
  simp [Close, h]

theorem Close_attached (V : Vendor σ) (m : NVGPUMonitor) (w : World σ) (h : m.nvml ≠ none) :
    (Close V m w).2
      = { state := (V.Shutdown m.nvml w.state).2,
          log := w.log ++ [{ call := .Shutdown m.nvml, err := (V.Shutdown m.nvml w.state).1 }] } ∧
    ((Close V m w).1.1 = none ↔ (V.Shutdown m.nvml w.state).1 = none) ∧
    ∀ e, (V.Shutdown m.nvml w.state).1 = some e →
      ∃ q, (Close V m w).1.1 = some q ∧ q.Unwrap = some e ∧
        q.Error = "failed to shutdown NVML: " ++ e.Error := by
  have h1 : m.nvml.isSome = true := by
    cases hx : m.nvml with
    | none => exact absurd hx h
    | some a => rfl
  cases hS : (V.Shutdown m.nvml w.state).1 with
  | none =>
    simp [Close, h1, callShutdown, World.record, hS]
  | some e =>
    simp [Close, h1, callShutdown, World.record, hS, ErrorfW, GoError.Unwrap, GoError.Error]

/-- C8.  `Close` on a monitor whose interface handle is nil returns nil and makes
no vendor call.  Otherwise it calls the vendor `Shutdown` exactly once, on that
handle, and returns a non-nil error exactly when `Shutdown` fails; that error
wraps the `Shutdown` error.  Either way the monitor, and so its device sequence
and `DeviceCount`, is unchanged. -/
theorem C8_close (V : Vendor σ) (m : NVGPUMonitor) (w : World σ) :
    (m.nvml = none → Close V m w = ((none, m), w)) ∧
    (m.nvml ≠ none →
      (Close V m w).2
        = { state := (V.Shutdown m.nvml w.state).2,
            log := w.log ++ [{ call := .Shutdown m.nvml, err := (V.Shutdown m.nvml w.state).1 }] } ∧
      ((Close V m w).1.1 = none ↔ (V.Shutdown m.nvml w.state).1 = none) ∧
      ∀ e, (V.Shutdown m.nvml w.state).1 = some e →
        ∃ q, (Close V m w).1.1 = some q ∧ q.Unwrap = some e ∧
          q.Error = "failed to shutdown NVML: " ++ e.Error) ∧
    (Close V m w).1.2 = m ∧
    (Close V m w).1.2.devices = m.devices ∧
    DeviceCount (Close V m w).1.2 = DeviceCount m := by
  have hm := Close_monitor V m w
  exact ⟨Close_nil V m w, Close_attached V m w, hm, by rw [hm], by rw [hm]⟩

/-- C8 at concrete monitors: a monitor without interface handle closes without
any vendor call; the monitor built over `lenientDriver` closes with one
`Shutdown`. -/
theorem C8_close_witness :
    Close (scripted lenientDriver) { nvml := none, devices := [], devicecount := 0 }
        { state := 0, log := [] }
      = ((none, { nvml := none, devices := [], devicecount := 0 }), { state := 0, log := [] }) ∧
    (Close (scripted lenientDriver) lenientMonitor { state := 0, log := [] }).2
      = { state := 1, log := [{ call := .Shutdown (some 1), err := none }] } :=
  ⟨(C8_close (scripted lenientDriver) { nvml := none, devices := [], devicecount := 0 }
      { state := 0, log := [] }).1 rfl,
    ((C8_close (scripted lenientDriver) lenientMonitor { state := 0, log := [] }).2.1
      (by simp [lenientMonitor])).1⟩

/-- C7 fails as stated: over `lenientDriver` the construction succeeds and the
first `Close` returns nil, yet the second `Close` calls `Shutdown` again and
returns the wrapped "Uninitialized" error. -/
theorem C7_second_close_not_a_noop :
    let V := scripted lenientDriver
    let r0 := NewNVGPUMonitor V "nvml.dll" { state := 0, log := [] }
    let r1 := Close V lenientMonitor r0.2
    let r2 := Close V r1.1.2 r1.2
    r0.1 = (some lenientMonitor, none) ∧
    r1.1 = (none, lenientMonitor) ∧
    r2.1.1 = some (.wrap "failed to shutdown NVML: Uninitialized" (.base "Uninitialized")) ∧
    r2.2.log = r1.2.log ++
      [{ call := .Shutdown (some 1), err := some (.base "Uninitialized") }] ∧
    ¬ (r2.1.1 = none ∧ r2.2.log = r1.2.log) := by
  simp [NewNVGPUMonitor, enumerate, Close, callNew, callInit, callDeviceGetCount,
    callDeviceGetHandleByIndex, callShutdown, scripted, lenientDriver, lenientMonitor,
    World.record, toUint32, ErrorfW, GoError.Error]

/-- C7 (amended).  After a first `Close` that returned nil, a second `Close` is a
no-op success when the interface handle is nil; otherwise it calls the vendor
`Shutdown` once more and returns nil exactly when that call succeeds, and an
error wrapping the `Shutdown` error when it fails. -/
theorem C7_second_close (V : Vendor σ) (m : NVGPUMonitor) (w : World σ)
    (_hfirst : (Close V m w).1.1 = none) :
    (m.nvml = none →
      Close V (Close V m w).1.2 (Close V m w).2 = ((none, m), (Close V m w).2)) ∧
    (m.nvml ≠ none →
      (Close V (Close V m w).1.2 (Close V m w).2).2
        = { state := (V.Shutdown m.nvml (Close V m w).2.state).2,
            log := (Close V m w).2.log ++
              [{ call := .Shutdown m.nvml,
                 err := (V.Shutdown m.nvml (Close V m w).2.state).1 }] } ∧
      ((Close V (Close V m w).1.2 (Close V m w).2).1.1 = none ↔
        (V.Shutdown m.nvml (Close V m w).2.state).1 = none) ∧
      ∀ e, (V.Shutdown m.nvml (Close V m w).2.state).1 = some e →
        ∃ q, (Close V (Close V m w).1.2 (Close V m w).2).1.1 = some q ∧
          q.Unwrap = some e ∧ q.Error = "failed to shutdown NVML: " ++ e.Error) := by
  rw [Close_monitor V m w]
  exact ⟨Close_nil V m _, Close_attached V m _⟩

/-- C7 (amended) at `lenientDriver`, whose second `Shutdown` fails: the first
`Close` returns nil, the second one calls `Shutdown` again. -/
theorem C7_second_close_witness :
    (Close (scripted lenientDriver) lenientMonitor { state := 0, log := [] }).1.1 = none ∧
    (Close (scripted lenientDriver) lenientMonitor
        (Close (scripted lenientDriver) lenientMonitor { state := 0, log := [] }).2).2
      = { state := 2,
          log := [{ call := .Shutdown (some 1), err := none },
            { call := .Shutdown (some 1), err := some (.base "Uninitialized") }] } :=
  ⟨by simp [Close, callShutdown, scripted, lenientDriver, lenientMonitor],
    (((C7_second_close (scripted lenientDriver) lenientMonitor { state := 0, log := [] }
      (by simp [Close, callShutdown, scripted, lenientDriver, lenientMonitor])).2
      (by simp [lenientMonitor])).1).trans
      (by simp [Close, callShutdown, scripted, lenientDriver, lenientMonitor, World.record])⟩

/-! ## The telemetry accessors -/

theorem DeviceCount_le (m : NVGPUMonitor) : (DeviceCount m).val ≤ m.devices.length := by
  simp only [DeviceCount, toUint32]
  exact Nat.mod_le _ _

theorem DeviceCount_eq (m : NVGPUMonitor) (h : m.devices.length < 4294967296) :
    (DeviceCount m).val = m.devices.length := by
  simp only [DeviceCount, toUint32]
  exact Nat.mod_eq_of_lt h

theorem stored_handle (m : NVGPUMonitor) (index : Uint32) (h : index < DeviceCount m) :
    ∃ device, m.devices[index.val]? = some device := by
  have h1 : index.val < (DeviceCount m).val := h
  have h2 := DeviceCount_le m
  exact ⟨m.devices[index.val], List.getElem?_eq_getElem (by omega)⟩

theorem GetGPUUtilization_spec (V : Vendor σ) (m : NVGPUMonitor) (index : Uint32)
    (w : World σ) (device : Device) (hd : m.devices[index.val]? = some device) :
    (GetGPUUtilization V m index w).2
      = { state := (V.DeviceGetUtilizationRates m.nvml device w.state).2,
          log := w.log ++ [{ call := .DeviceGetUtilizationRates m.nvml device,
                             err := (V.DeviceGetUtilizationRates m.nvml device w.state).1.2 }] } ∧
    ((V.DeviceGetUtilizationRates m.nvml device w.state).1.2 = none →
      (GetGPUUtilization V m index w).1
        = .returned ((V.DeviceGetUtilizationRates m.nvml device w.state).1.1.GPU,
            (V.DeviceGetUtilizationRates m.nvml device w.state).1.1.Memory, none)) ∧
    (∀ e, (V.DeviceGetUtilizationRates m.nvml device w.state).1.2 = some e →
      ∃ err, (GetGPUUtilization V m index w).1 = .returned (0, 0, err) ∧
        QueryFailure err "gpu utilization" index.val e) := by
  cases hv : (V.DeviceGetUtilizationRates m.nvml device w.state).1.2 with
  | none =>
    simp [GetGPUUtilization, hd, callDeviceGetUtilizationRates, World.record, hv]
  | some e =>
    simp [GetGPUUtilization, hd, callDeviceGetUtilizationRates, World.record, hv, ErrorfW,
      QueryFailure, GoError.Unwrap, GoError.Error]

theorem GetEncoderUtilization_spec (V : Vendor σ) (m : NVGPUMonitor) (index : Uint32)
    (w : World σ) (device : Device) (hd : m.devices[index.val]? = some device) :
    (GetEncoderUtilization V m index w).2
      = { state := (V.DeviceGetEncoderUtilization m.nvml device w.state).2,
          log := w.log ++ [{ call := .DeviceGetEncoderUtilization m.nvml device,
                             err := (V.DeviceGetEncoderUtilization m.nvml device w.state).1.2.2 }] } ∧
    ((V.DeviceGetEncoderUtilization m.nvml device w.state).1.2.2 = none →
      (GetEncoderUtilization V m index w).1
        = .returned ((V.DeviceGetEncoderUtilization m.nvml device w.state).1.1,
            (V.DeviceGetEncoderUtilization m.nvml device w.state).1.2.1, none)) ∧
    (∀ e, (V.DeviceGetEncoderUtilization m.nvml device w.state).1.2.2 = some e →
      ∃ err, (GetEncoderUtilization V m index w).1 = .returned (0, 0, err) ∧
        QueryFailure err "encoder utilization" index.val e) := by
  cases hv : (V.DeviceGetEncoderUtilization m.nvml device w.state).1.2.2 with
  | none =>
    simp [GetEncoderUtilization, hd, callDeviceGetEncoderUtilization, World.record, hv]
  | some e =>
    simp [GetEncoderUtilization, hd, callDeviceGetEncoderUtilization, World.record, hv, ErrorfW,
      QueryFailure, GoError.Unwrap, GoError.Error]

theorem GetDecoderUtilization_spec (V : Vendor σ) (m : NVGPUMonitor) (index : Uint32)
    (w : World σ) (device : Device) (hd : m.devices[index.val]? = some device) :
    (GetDecoderUtilization V m index w).2
      = { state := (V.DeviceGetDecoderUtilization m.nvml device w.state).2,
          log := w.log ++ [{ call := .DeviceGetDecoderUtilization m.nvml device,
                             err := (V.DeviceGetDecoderUtilization m.nvml device w.state).1.2.2 }] } ∧
    ((V.DeviceGetDecoderUtilization m.nvml device w.state).1.2.2 = none →
      (GetDecoderUtilization V m index w).1
        = .returned ((V.DeviceGetDecoderUtilization m.nvml device w.state).1.1,
            (V.DeviceGetDecoderUtilization m.nvml device w.state).1.2.1, none)) ∧
    (∀ e, (V.DeviceGetDecoderUtilization m.nvml device w.state).1.2.2 = some e →
      ∃ err, (GetDecoderUtilization V m index w).1 = .returned (0, 0, err) ∧
        QueryFailure err "decoder utilization" index.val e) := by
  cases hv : (V.DeviceGetDecoderUtilization m.nvml device w.state).1.2.2 with
  | none =>
    simp [GetDecoderUtilization, hd, callDeviceGetDecoderUtilization, World.record, hv]
  | some e =>
    simp [GetDecoderUtilization, hd, callDeviceGetDecoderUtilization, World.record, hv, ErrorfW,
      QueryFailure, GoError.Unwrap, GoError.Error]

theorem GetTemperature_spec (V : Vendor σ) (m : NVGPUMonitor) (index : Uint32)
    (w : World σ) (device : Device) (hd : m.devices[index.val]? = some device) :
    (GetTemperature V m index w).2
      = { state := (V.DeviceGetTemperature m.nvml device .TemperatureGPU w.state).2,
          log := w.log ++ [{ call := .DeviceGetTemperature m.nvml device .TemperatureGPU,
                             err := (V.DeviceGetTemperature m.nvml device .TemperatureGPU w.state).1.2 }] } ∧
    ((V.DeviceGetTemperature m.nvml device .TemperatureGPU w.state).1.2 = none →
      (GetTemperature V m index w).1
        = .returned ((V.DeviceGetTemperature m.nvml device .TemperatureGPU w.state).1.1, none)) ∧
    (∀ e, (V.DeviceGetTemperature m.nvml device .TemperatureGPU w.state).1.2 = some e →
      ∃ err, (GetTemperature V m index w).1 = .returned (0, err) ∧
        QueryFailure err "temperature" index.val e) := by
  cases hv : (V.DeviceGetTemperature m.nvml device .TemperatureGPU w.state).1.2 with
  | none =>
    simp [GetTemperature, hd, callDeviceGetTemperature, World.record, hv]
  | some e =>
    simp [GetTemperature, hd, callDeviceGetTemperature, World.record, hv, ErrorfW,
      QueryFailure, GoError.Unwrap, GoError.Error]

theorem GetFanSpeed_spec (V : Vendor σ) (m : NVGPUMonitor) (index : Uint32)
    (w : World σ) (device : Device) (hd : m.devices[index.val]? = some device) :
    (GetFanSpeed V m index w).2
      = { state := (V.DeviceGetFanSpeed m.nvml device w.state).2,
          log := w.log ++ [{ call := .DeviceGetFanSpeed m.nvml device,
                             err := (V.DeviceGetFanSpeed m.nvml device w.state).1.2 }] } ∧
    ((V.DeviceGetFanSpeed m.nvml device w.state).1.2 = none →
      (GetFanSpeed V m index w).1
        = .returned ((V.DeviceGetFanSpeed m.nvml device w.state).1.1, none)) ∧
    (∀ e, (V.DeviceGetFanSpeed m.nvml device w.state).1.2 = some e →
      ∃ err, (GetFanSpeed V m index w).1 = .returned (0, err) ∧
        QueryFailure err "fan speed" index.val e) := by
  cases hv : (V.DeviceGetFanSpeed m.nvml device w.state).1.2 with
  | none =>
    simp [GetFanSpeed, hd, callDeviceGetFanSpeed, World.record, hv]
  | some e =>
    simp [GetFanSpeed, hd, callDeviceGetFanSpeed, World.record, hv, ErrorfW,
      QueryFailure, GoError.Unwrap, GoError.Error]

/-- C5.  For an index below `DeviceCount()`, each of the five accessors makes
exactly one vendor call, the matching query on the handle stored at that index
(the temperature query with the GPU sensor selector), and, when that query
succeeds, returns the vendor's values unchanged together with a nil error. -/
theorem C5_accessors_return_vendor_values (V : Vendor σ) (m : NVGPUMonitor) (index : Uint32)
    (w : World σ) (h : index < DeviceCount m) :
    ∃ device, m.devices[index.val]? = some device ∧
      (let r := V.DeviceGetUtilizationRates m.nvml device w.state
       (GetGPUUtilization V m index w).2 = w.record (.DeviceGetUtilizationRates m.nvml device) r.1.2 r.2 ∧
       (r.1.2 = none → (GetGPUUtilization V m index w).1 = .returned (r.1.1.GPU, r.1.1.Memory, none))) ∧
      (let r := V.DeviceGetEncoderUtilization m.nvml device w.state
       (GetEncoderUtilization V m index w).2 = w.record (.DeviceGetEncoderUtilization m.nvml device) r.1.2.2 r.2 ∧
       (r.1.2.2 = none → (GetEncoderUtilization V m index w).1 = .returned (r.1.1, r.1.2.1, none))) ∧
      (let r := V.DeviceGetDecoderUtilization m.nvml device w.state
       (GetDecoderUtilization V m index w).2 = w.record (.DeviceGetDecoderUtilization m.nvml device) r.1.2.2 r.2 ∧
       (r.1.2.2 = none → (GetDecoderUtilization V m index w).1 = .returned (r.1.1, r.1.2.1, none))) ∧
      (let r := V.DeviceGetTemperature m.nvml device .TemperatureGPU w.state
       (GetTemperature V m index w).2 = w.record (.DeviceGetTemperature m.nvml device .TemperatureGPU) r.1.2 r.2 ∧
       (r.1.2 = none → (GetTemperature V m index w).1 = .returned (r.1.1, none))) ∧
      (let r := V.DeviceGetFanSpeed m.nvml device w.state
       (GetFanSpeed V m index w).2 = w.record (.DeviceGetFanSpeed m.nvml device) r.1.2 r.2 ∧
       (r.1.2 = none → (GetFanSpeed V m index w).1 = .returned (r.1.1, none))) := by
  obtain ⟨device, hd⟩ := stored_handle m index h
  refine ⟨device, hd, ?_, ?_, ?_, ?_, ?_⟩
  · exact ⟨(GetGPUUtilization_spec V m index w device hd).1,
      (GetGPUUtilization_spec V m index w device hd).2.1⟩
  · exact ⟨(GetEncoderUtilization_spec V m index w device hd).1,
      (GetEncoderUtilization_spec V m index w device hd).2.1⟩
  · exact ⟨(GetDecoderUtilization_spec V m index w device hd).1,
      (GetDecoderUtilization_spec V m index w device hd).2.1⟩
  · exact ⟨(GetTemperature_spec V m index w device hd).1,
      (GetTemperature_spec V m index w device hd).2.1⟩
  · exact ⟨(GetFanSpeed_spec V m index w device hd).1,
      (GetFanSpeed_spec V m index w device hd).2.1⟩

/-- C5 at the spec's examples: over a driver that reports GPU=42, Memory=17 and
encoder utilization 55 with period 1000, `GetGPUUtilization(0)` returns
`(42, 17, nil)` and `GetEncoderUtilization(1)` returns `(55, 1000, nil)`. -/
theorem C5_accessors_return_vendor_values_witness :
    (GetGPUUtilization (scripted lenientDriver) lenientMonitor 0 { state := 0, log := [] }).1
      = .returned (42, 17, none) ∧
    (GetEncoderUtilization (scripted lenientDriver) lenientMonitor 1 { state := 0, log := [] }).1
      = .returned (55, 1000, none) := by
  obtain ⟨d0, -, h0, -⟩ := C5_accessors_return_vendor_values (scripted lenientDriver)
    lenientMonitor 0 { state := 0, log := [] } (by decide)
  obtain ⟨d1, -, -, h1, -⟩ := C5_accessors_return_vendor_values (scripted lenientDriver)
    lenientMonitor 1 { state := 0, log := [] } (by decide)
  exact ⟨h0.2 rfl, h1.2 rfl⟩

/-- C6.  For an index below `DeviceCount()`, each of the five accessors returns,
makes exactly one vendor call (no retry), and its error is non-nil exactly when
that vendor query fails.  In that case every returned value is 0 and the error
wraps the vendor error, with the message
"failed to get ACCESSOR of gpu INDEX: " followed by the vendor's message. -/
theorem C6_accessors_wrap_vendor_errors (V : Vendor σ) (m : NVGPUMonitor) (index : Uint32)
    (w : World σ) (h : index < DeviceCount m) :
    ∃ device, m.devices[index.val]? = some device ∧
      (let r := V.DeviceGetUtilizationRates m.nvml device w.state
       (GetGPUUtilization V m index w).2 = w.record (.DeviceGetUtilizationRates m.nvml device) r.1.2 r.2 ∧
       (∃ res, (GetGPUUtilization V m index w).1 = .returned res ∧ (res.2.2 ≠ none ↔ r.1.2 ≠ none)) ∧
       (∀ e, r.1.2 = some e →
          ∃ err, (GetGPUUtilization V m index w).1 = .returned (0, 0, err) ∧
            QueryFailure err "gpu utilization" index.val e)) ∧
      (let r := V.DeviceGetEncoderUtilization m.nvml device w.state
       (GetEncoderUtilization V m index w).2 = w.record (.DeviceGetEncoderUtilization m.nvml device) r.1.2.2 r.2 ∧
       (∃ res, (GetEncoderUtilization V m index w).1 = .returned res ∧ (res.2.2 ≠ none ↔ r.1.2.2 ≠ none)) ∧
       (∀ e, r.1.2.2 = some e →
          ∃ err, (GetEncoderUtilization V m index w).1 = .returned (0, 0, err) ∧
            QueryFailure err "encoder utilization" index.val e)) ∧
      (let r := V.DeviceGetDecoderUtilization m.nvml device w.state
       (GetDecoderUtilization V m index w).2 = w.record (.DeviceGetDecoderUtilization m.nvml device) r.1.2.2 r.2 ∧
       (∃ res, (GetDecoderUtilization V m index w).1 = .returned res ∧ (res.2.2 ≠ none ↔ r.1.2.2 ≠ none)) ∧
       (∀ e, r.1.2.2 = some e →
          ∃ err, (GetDecoderUtilization V m index w).1 = .returned (0, 0, err) ∧
            QueryFailure err "decoder utilization" index.val e)) ∧
      (let r := V.DeviceGetTemperature m.nvml device .TemperatureGPU w.state
       (GetTemperature V m index w).2 = w.record (.DeviceGetTemperature m.nvml device .TemperatureGPU) r.1.2 r.2 ∧
       (∃ res, (GetTemperature V m index w).1 = .returned res ∧ (res.2 ≠ none ↔ r.1.2 ≠ none)) ∧
       (∀ e, r.1.2 = some e →
          ∃ err, (GetTemperature V m index w).1 = .returned (0, err) ∧
            QueryFailure err "temperature" index.val e)) ∧
      (let r := V.DeviceGetFanSpeed m.nvml device w.state
       (GetFanSpeed V m index w).2 = w.record (.DeviceGetFanSpeed m.nvml device) r.1.2 r.2 ∧
       (∃ res, (GetFanSpeed V m index w).1 = .returned res ∧ (res.2 ≠ none ↔ r.1.2 ≠ none)) ∧
       (∀ e, r.1.2 = some e →
          ∃ err, (GetFanSpeed V m index w).1 = .returned (0, err) ∧
            QueryFailure err "fan speed" index.val e)) := by
  obtain ⟨device, hd⟩ := stored_handle m index h
  refine ⟨device, hd, ?_, ?_, ?_, ?_, ?_⟩
  · obtain ⟨h1, h2, h3⟩ := GetGPUUtilization_spec V m index w device hd
    refine ⟨h1, ?_, h3⟩
    cases hv : (V.DeviceGetUtilizationRates m.nvml device w.state).1.2 with
    | none => exact ⟨_, h2 hv, by simp⟩
    | some e =>
      obtain ⟨err, h4, q, h5, -⟩ := h3 e hv
      exact ⟨_, h4, by simp [h5]⟩
  · obtain ⟨h1, h2, h3⟩ := GetEncoderUtilization_spec V m index w device hd
    refine ⟨h1, ?_, h3⟩
    cases hv : (V.DeviceGetEncoderUtilization m.nvml device w.state).1.2.2 with
    | none => exact ⟨_, h2 hv, by simp⟩
    | some e =>
      obtain ⟨err, h4, q, h5, -⟩ := h3 e hv
      exact ⟨_, h4, by simp [h5]⟩
  · obtain ⟨h1, h2, h3⟩ := GetDecoderUtilization_spec V m index w device hd
    refine ⟨h1, ?_, h3⟩
    cases hv : (V.DeviceGetDecoderUtilization m.nvml device w.state).1.2.2 with
    | none => exact ⟨_, h2 hv, by simp⟩
    | some e =>
      obtain ⟨err, h4, q, h5, -⟩ := h3 e hv
      exact ⟨_, h4, by simp [h5]⟩
  · obtain ⟨h1, h2, h3⟩ := GetTemperature_spec V m index w device hd
    refine ⟨h1, ?_, h3⟩
    cases hv : (V.DeviceGetTemperature m.nvml device .TemperatureGPU w.state).1.2 with
    | none => exact ⟨_, h2 hv, by simp⟩
    | some e =>
      obtain ⟨err, h4, q, h5, -⟩ := h3 e hv
      exact ⟨_, h4, by simp [h5]⟩
  · obtain ⟨h1, h2, h3⟩ := GetFanSpeed_spec V m index w device hd
    refine ⟨h1, ?_, h3⟩
    cases hv : (V.DeviceGetFanSpeed m.nvml device w.state).1.2 with
    | none => exact ⟨_, h2 hv, by simp⟩
    | some e =>
      obtain ⟨err, h4, q, h5, -⟩ := h3 e hv
      exact ⟨_, h4, by simp [h5]⟩

/-- C6 at a driver whose queries fail with "GPU is lost": `GetFanSpeed(1)`
returns 0 and an error wrapping it whose message names the accessor and the
index. -/
theorem C6_accessors_wrap_vendor_errors_witness :
    (GetFanSpeed (scripted queryFailing) lenientMonitor 1 { state := 0, log := [] }).1
      = .returned (0, some (.wrap "failed to get fan speed of gpu 1: GPU is lost"
          (.base "GPU is lost"))) := by
  obtain ⟨d1, -, -, -, -, -, -, -, h1⟩ := C6_accessors_wrap_vendor_errors (scripted queryFailing)
    lenientMonitor 1 { state := 0, log := [] } (by decide)
  obtain ⟨err, h2, q, h3, h4, h5⟩ := h1 (.base "GPU is lost") rfl
  rw [h2, h3]
  cases q with
  | base msg => simp [GoError.Unwrap] at h4
  | wrap msg inner =>
    simp only [GoError.Unwrap, Option.some.injEq] at h4
    simp only [GoError.Error] at h5
    subst h4 h5
    rfl

/-! ## Index lookup -/

theorem lookup_none (m : NVGPUMonitor) (index : Uint32) (h : m.devices.length ≤ index.val) :
    m.devices[index.val]? = none :=
  List.getElem?_eq_none h

/-- Construction over `hugeDriver` succeeds and stores `2^32` handles. -/
theorem hugeDriver_constructs :
    ∃ ds : List Device, ds.length = 4294967296 ∧
      (NewNVGPUMonitor (scripted hugeDriver) "nvml.dll" { state := 0, log := [] }).1
        = (some { nvml := some 1, devices := ds, devicecount := 4294967295 }, none) := by
  have hrun : NewNVGPUMonitor (scripted hugeDriver) "nvml.dll" { state := 0, log := [] }
      = enumerate (scripted hugeDriver) 4294967295 0
          { nvml := some 1, devices := [], devicecount := 4294967295 }
          { state := 0,
            log := [{ call := .New "nvml.dll", err := none }, { call := .Init (some 1), err := none },
              { call := .DeviceGetCount (some 1), err := none }] } := by
    simp [NewNVGPUMonitor, callNew, callInit, callDeviceGetCount, World.record, scripted,
      hugeDriver, lenientDriver]
  rw [hrun]
  rcases enumerate_spec (scripted hugeDriver) 4294967295 0
      { nvml := some 1, devices := [], devicecount := 4294967295 }
      { state := 0,
        log := [{ call := .New "nvml.dll", err := none }, { call := .Init (some 1), err := none },
          { call := .DeviceGetCount (some 1), err := none }] }
    with ⟨ds, h1, h2, -, -⟩ | ⟨k, e0, -, -, -, -, ⟨s, hs⟩, -⟩
  · refine ⟨ds, ?_, ?_⟩
    · rw [h2]; rfl
    · rw [h1]; simp
  · exfalso
    have hlt : (toUint32 k).val < 4294967296 := (toUint32 k).isLt
    simp [scripted, hugeDriver, lenientDriver, hlt] at hs

/-- C9 fails as stated: the monitor constructed over `hugeDriver` holds `2^32`
handles, so `DeviceCount()` is 0 and index 0 is not below it; yet
`GetFanSpeed(0)` does not fault: it queries the vendor and returns its value. -/
theorem C9_index_at_device_count_in_range :
    ∃ m, (NewNVGPUMonitor (scripted hugeDriver) "nvml.dll" { state := 0, log := [] }).1
        = (some m, none) ∧
      DeviceCount m = 0 ∧ ¬ ((0 : Uint32) < DeviceCount m) ∧
      (GetFanSpeed (scripted hugeDriver) m 0 { state := 0, log := [] }).1
        = .returned (30, none) ∧
      (GetFanSpeed (scripted hugeDriver) m 0 { state := 0, log := [] }).2.log.length = 1 := by
  obtain ⟨ds, hlen, hrun⟩ := hugeDriver_constructs
  have hcount : DeviceCount { nvml := some 1, devices := ds, devicecount := 4294967295 } = 0 := by
    simp only [DeviceCount, toUint32, hlen]
    rfl
  refine ⟨_, hrun, hcount, ?_, ?_, ?_⟩
  · rw [hcount]; exact lt_irrefl _
  · cases ds with
    | nil => simp at hlen
    | cons d t =>
      simp [GetFanSpeed, callDeviceGetFanSpeed, World.record, scripted, hugeDriver, lenientDriver]
  · cases ds with
    | nil => simp at hlen
    | cons d t =>
      simp [GetFanSpeed, callDeviceGetFanSpeed, World.record, scripted, hugeDriver, lenientDriver]

/-- C9 (amended).  The accessors do not validate the index.  If
`index < DeviceCount()` the lookup of the stored handle does not fault: every
accessor returns.  If `index >= len(devices)` every accessor faults with index
out of range and makes no vendor call.  `index >= len(devices)` is the same as
`index >= DeviceCount()` whenever the monitor holds fewer than `2^32` handles. -/
theorem C9_index_lookup (V : Vendor σ) (m : NVGPUMonitor) (index : Uint32) (w : World σ) :
    (index < DeviceCount m →
      (∃ res, (GetGPUUtilization V m index w).1 = .returned res) ∧
      (∃ res, (GetEncoderUtilization V m index w).1 = .returned res) ∧
      (∃ res, (GetDecoderUtilization V m index w).1 = .returned res) ∧
      (∃ res, (GetTemperature V m index w).1 = .returned res) ∧
      (∃ res, (GetFanSpeed V m index w).1 = .returned res)) ∧
    (m.devices.length ≤ index.val →
      GetGPUUtilization V m index w = (.indexOutOfRange index.val m.devices.length, w) ∧
      GetEncoderUtilization V m index w = (.indexOutOfRange index.val m.devices.length, w) ∧
      GetDecoderUtilization V m index w = (.indexOutOfRange index.val m.devices.length, w) ∧
      GetTemperature V m index w = (.indexOutOfRange index.val m.devices.length, w) ∧
      GetFanSpeed V m index w = (.indexOutOfRange index.val m.devices.length, w)) ∧
    (m.devices.length < 4294967296 →
      (DeviceCount m ≤ index ↔ m.devices.length ≤ index.val)) := by
  refine ⟨?_, ?_, ?_⟩
  · intro h
    obtain ⟨device, hd⟩ := stored_handle m index h
    refine ⟨?_, ?_, ?_, ?_, ?_⟩
    · simp only [GetGPUUtilization, hd]; split <;> exact ⟨_, rfl⟩
    · simp only [GetEncoderUtilization, hd]; split <;> exact ⟨_, rfl⟩
    · simp only [GetDecoderUtilization, hd]; split <;> exact ⟨_, rfl⟩
    · simp only [GetTemperature, hd]; split <;> exact ⟨_, rfl⟩
    · simp only [GetFanSpeed, hd]; split <;> exact ⟨_, rfl⟩
  · intro h
    have hn := lookup_none m index h
    refine ⟨?_, ?_, ?_, ?_, ?_⟩
    · simp only [GetGPUUtilization, hn]
    · simp only [GetEncoderUtilization, hn]
    · simp only [GetDecoderUtilization, hn]
    · simp only [GetTemperature, hn]
    · simp only [GetFanSpeed, hn]
  · intro h
    have h1 := DeviceCount_eq m h
    rw [Fin.le_def, h1]

/-- C9 (amended) at the two-device monitor: index 1 is served, index 2 faults
and leaves the log empty. -/
theorem C9_index_lookup_witness :
    (∃ res, (GetFanSpeed (scripted lenientDriver) lenientMonitor 1
        { state := 0, log := [] }).1 = .returned res) ∧
    GetFanSpeed (scripted lenientDriver) lenientMonitor 2 { state := 0, log := [] }
      = (.indexOutOfRange 2 2, { state := 0, log := [] }) :=
  ⟨((C9_index_lookup (scripted lenientDriver) lenientMonitor 1 { state := 0, log := [] }).1
      (by decide)).2.2.2.2,
    ((C9_index_lookup (scripted lenientDriver) lenientMonitor 2 { state := 0, log := [] }).2.1
      (by decide)).2.2.2.2⟩

/-! ## Construction: enumeration -/

theorem toUint32_val (n : Nat) (h : n < 4294967296) : (toUint32 n).val = n := by
  simp only [toUint32]
  exact Nat.mod_eq_of_lt h

theorem toUint32_succ_ne (count : Uint32) : toUint32 (count.val + 1) ≠ count := by
  intro h
  have h1 := congrArg Fin.val h
  have h2 := count.isLt
  simp only [toUint32] at h1
  omega

theorem NewNVGPUMonitor_reaches_loop (V : Vendor σ) (dllPath : String) (w : World σ)
    (n : Option API) (s1 s2 : σ) (count : Uint32) (s3 : σ)
    (hNew : V.New dllPath w.state = ((n, none), s1))
    (hInit : V.Init n s1 = (none, s2))
    (hCount : V.DeviceGetCount n s2 = ((count, none), s3)) :
    NewNVGPUMonitor V dllPath w
      = enumerate V count 0 { nvml := n, devices := [], devicecount := count }
          { state := s3,
            log := w.log ++ [{ call := .New dllPath, err := none },
              { call := .Init n, err := none },
              { call := .DeviceGetCount n, err := none }] } := by
  simp [NewNVGPUMonitor, callNew, callInit, callDeviceGetCount, World.record, hNew, hInit,
    hCount]

/-- C1 (the code departs from the claim).  Whenever `NewNVGPUMonitor` succeeds,
with `count` the value returned by `DeviceGetCount` (kept in `devicecount`),
the handle fetches used the indices `0, 1, ..., count` in order, so index
`count` was fetched too, the monitor holds `count + 1` handles, and
`DeviceCount()` is `uint32(count + 1)`, never `count`. -/
theorem C1_success_fetches_count_plus_one (V : Vendor σ) (dllPath : String) (w : World σ)
    (m : NVGPUMonitor) (h : (NewNVGPUMonitor V dllPath w).1.1 = some m) :
    (NewNVGPUMonitor V dllPath w).1.2 = none ∧
    (∃ s, (V.DeviceGetCount m.nvml s).1 = (m.devicecount, none)) ∧
    (NewNVGPUMonitor V dllPath w).2.log
      = w.log ++ [{ call := .New dllPath, err := none }, { call := .Init m.nvml, err := none },
          { call := .DeviceGetCount m.nvml, err := none }]
        ++ (List.range' 0 (m.devicecount.val + 1)).map (fetchOk m.nvml) ∧
    m.devices.length = m.devicecount.val + 1 ∧
    DeviceCount m = toUint32 (m.devicecount.val + 1) ∧
    DeviceCount m ≠ m.devicecount := by
  rcases NewNVGPUMonitor_cases V dllPath w with
    ⟨n, e, s1, -, hr⟩ | ⟨n, s1, e, s2, c, s3, -, -, -, hr⟩ | ⟨n, s1, e, s2, s3, -, -, -, hr⟩ |
    ⟨n, s1, s2, count, e, s3, -, -, -, hr⟩ | ⟨n, s1, s2, count, s3, -, -, hC, hr⟩
  · rw [hr] at h; simp at h
  · rw [hr] at h; simp at h
  · rw [hr] at h; simp at h
  · rw [hr] at h; simp at h
  · rw [hr] at h ⊢
    rcases enumerate_spec V count 0 { nvml := n, devices := [], devicecount := count }
        { state := s3,
          log := w.log ++ [{ call := .New dllPath, err := none },
            { call := .Init n, err := none },
            { call := .DeviceGetCount n, err := none }] }
      with ⟨ds, h1, h2, h3, -⟩ | ⟨k, e0, -, -, h1, -, -, -⟩
    · rw [h1] at h
      simp only [Option.some.injEq] at h
      subst h
      have hlen : ([] ++ ds : List Device).length = count.val + 1 := by simpa using h2
      have hdc : DeviceCount { nvml := n, devices := [] ++ ds, devicecount := count }
          = toUint32 (count.val + 1) := by
        simp only [DeviceCount, hlen]
      refine ⟨by rw [h1], ⟨s2, by rw [hC]⟩, ?_, hlen, hdc, ?_⟩
      · rw [h3]; simp
      · rw [hdc]; exact toUint32_succ_ne count
    · rw [h1] at h; simp at h

/-- C1 at a concrete driver that reports one device and accepts index 1:
construction succeeds with two handles, index 1 was fetched, and
`DeviceCount()` is 2. -/
theorem C1_success_fetches_count_plus_one_witness :
    (NewNVGPUMonitor (scripted lenientDriver) "nvml.dll" { state := 0, log := [] }).1
      = (some lenientMonitor, none) ∧
    lenientMonitor.devicecount = 1 ∧ DeviceCount lenientMonitor = 2 ∧
    (NewNVGPUMonitor (scripted lenientDriver) "nvml.dll" { state := 0, log := [] }).2.log
      = [{ call := .New "nvml.dll", err := none }, { call := .Init (some 1), err := none },
          { call := .DeviceGetCount (some 1), err := none },
          { call := .DeviceGetHandleByIndex (some 1) 0, err := none },
          { call := .DeviceGetHandleByIndex (some 1) 1, err := none }] := by
  have hrun : (NewNVGPUMonitor (scripted lenientDriver) "nvml.dll" { state := 0, log := [] }).1
      = (some lenientMonitor, none) := by
    simp [NewNVGPUMonitor, enumerate, callNew, callInit, callDeviceGetCount,
      callDeviceGetHandleByIndex, scripted, lenientDriver, lenientMonitor, World.record,
      toUint32]
  have hthm := C1_success_fetches_count_plus_one (scripted lenientDriver) "nvml.dll"
    { state := 0, log := [] } lenientMonitor (by rw [hrun])
  refine ⟨hrun, rfl, hthm.2.2.2.2.1, ?_⟩
  rw [hthm.2.2.1]
  rfl

/-- C2.  `NewNVGPUMonitor` returns either a monitor and a nil error, or a nil
monitor and a non-nil error.  The first vendor call is the library load; if any
vendor call made during construction fails (load, `Init`, `Shutdown`, the
device-count query, a handle fetch), the result is a nil monitor and a non-nil
error; and if the handle fetch at index `k` fails with `e`, the error message is
"Failed to get device k: " followed by the message of `e`. -/
theorem C2_construction_all_or_nothing (V : Vendor σ) (dllPath : String) (w : World σ) :
    ((∃ m, (NewNVGPUMonitor V dllPath w).1 = (some m, none)) ∨
      (∃ q, (NewNVGPUMonitor V dllPath w).1 = (none, some q))) ∧
    ∃ evs, (NewNVGPUMonitor V dllPath w).2.log = w.log ++ evs ∧
      evs.head? = some { call := .New dllPath, err := (V.New dllPath w.state).1.2 } ∧
      (∀ ev ∈ evs, ev.err ≠ none → ∃ q, (NewNVGPUMonitor V dllPath w).1 = (none, some q)) ∧
      (∀ recv (k : Uint32) e,
        ({ call := .DeviceGetHandleByIndex recv k, err := some e } : Event) ∈ evs →
          ∃ q, (NewNVGPUMonitor V dllPath w).1 = (none, some q) ∧
            q.Error = "Failed to get device " ++ fmtD k.val ++ ": " ++ e.Error) := by
  rcases NewNVGPUMonitor_cases V dllPath w with
    ⟨n, e, s1, hN, hr⟩ | ⟨n, s1, e, s2, c, s3, hN, -, -, hr⟩ | ⟨n, s1, e, s2, s3, hN, -, -, hr⟩ |
    ⟨n, s1, s2, count, e, s3, hN, -, -, hr⟩ | ⟨n, s1, s2, count, s3, hN, -, -, hr⟩
  · rw [hr, hN]
    exact ⟨Or.inr ⟨_, rfl⟩, _, rfl, rfl, fun _ _ _ => ⟨_, rfl⟩, by simp⟩
  · rw [hr, hN]
    exact ⟨Or.inr ⟨_, rfl⟩, _, rfl, rfl, fun _ _ _ => ⟨_, rfl⟩, by simp⟩
  · rw [hr, hN]
    exact ⟨Or.inr ⟨_, rfl⟩, _, rfl, rfl, fun _ _ _ => ⟨_, rfl⟩, by simp⟩
  · rw [hr, hN]
    exact ⟨Or.inr ⟨_, rfl⟩, _, rfl, rfl, fun _ _ _ => ⟨_, rfl⟩, by simp⟩
  · rw [hr, hN]
    rcases enumerate_spec V count 0 { nvml := n, devices := [], devicecount := count }
        { state := s3,
          log := w.log ++ [{ call := .New dllPath, err := none },
            { call := .Init n, err := none },
            { call := .DeviceGetCount n, err := none }] }
      with ⟨ds, h1, -, h3, -⟩ | ⟨k, e0, -, hk, h1, h3, -, -⟩
    · refine ⟨Or.inl ⟨_, h1⟩,
        ([{ call := .New dllPath, err := none }, { call := .Init n, err := none },
          { call := .DeviceGetCount n, err := none }]
          ++ (List.range' 0 (count.val + 1 - 0)).map (fetchOk n) : List Event),
        ?_, ?_, ?_, ?_⟩
      · rw [h3, List.append_assoc]
      · rfl
      · intro ev hev hne
        simp [fetchOk] at hev
        rcases hev with rfl | rfl | rfl | ⟨j, -, rfl⟩ <;> simp at hne
      · intro recv k e hev
        simp [fetchOk] at hev
    · refine ⟨Or.inr ⟨_, h1⟩,
        ([{ call := .New dllPath, err := none }, { call := .Init n, err := none },
          { call := .DeviceGetCount n, err := none }]
          ++ ((List.range' 0 (k - 0)).map (fetchOk n) ++ [fetchFailed n k e0]) : List Event),
        ?_, ?_, fun _ _ _ => ⟨_, h1⟩, ?_⟩
      · rw [h3, List.append_assoc, List.append_assoc]
      · rfl
      · intro recv k' e hev
        simp [fetchOk, fetchFailed] at hev
        obtain ⟨⟨-, hk'⟩, he⟩ := hev
        subst hk' he
        have hlt : k < 4294967296 := lt_of_le_of_lt hk count.isLt
        refine ⟨_, h1, ?_⟩
        rw [toUint32_val k hlt]
        simp [ErrorfV, fmtV, GoError.Error, String.append_assoc]

/-- C2 at a concrete driver with two devices that rejects index 2: the fetch at
index 2 fails, no monitor is returned and the message names index 2. -/
theorem C2_construction_all_or_nothing_witness :
    ∃ q, (NewNVGPUMonitor (scripted conformingDriver) "nvml.dll" { state := 0, log := [] }).1
        = (none, some q) ∧
      q.Error = "Failed to get device 2: Invalid Argument" := by
  obtain ⟨-, evs, hlog, -, -, hfetch⟩ := C2_construction_all_or_nothing
    (scripted conformingDriver) "nvml.dll" { state := 0, log := [] }
  have hrun : (NewNVGPUMonitor (scripted conformingDriver) "nvml.dll"
        { state := 0, log := [] }).2.log
      = [{ call := .New "nvml.dll", err := none }, { call := .Init (some 1), err := none },
          { call := .DeviceGetCount (some 1), err := none },
          { call := .DeviceGetHandleByIndex (some 1) 0, err := none },
          { call := .DeviceGetHandleByIndex (some 1) 1, err := none },
          { call := .DeviceGetHandleByIndex (some 1) 2,
            err := some (.base "Invalid Argument") }] := by
    simp [NewNVGPUMonitor, enumerate, callNew, callInit, callDeviceGetCount,
      callDeviceGetHandleByIndex, scripted, conformingDriver, lenientDriver, World.record,
      toUint32]
  rw [hrun] at hlog
  simp only [List.nil_append] at hlog
  subst hlog
  exact hfetch (some 1) 2 (.base "Invalid Argument") (by simp)

/-! ## Construction over a conforming driver -/

/-- The loop entered at `i`, when the fetches at `i, ..., k - 1` are accepted in
the states the loop itself visits and the fetch at `k` fails there with `e0`:
it stops at `k` and returns only the error naming `k`. -/
theorem enumerate_stops_at (V : Vendor σ) (count : Uint32) (k : Nat) (hk : k ≤ count.val)
    (e0 : GoError) (i : Nat) (monitor : NVGPUMonitor) (w : World σ) (hik : i ≤ k)
    (hacc : ∀ j, j < k - i →
      (V.DeviceGetHandleByIndex monitor.nvml (toUint32 (i + j))
        (stateAfterFetches V monitor.nvml i w.state j)).1.2 = none)
    (hrej : (V.DeviceGetHandleByIndex monitor.nvml (toUint32 k)
        (stateAfterFetches V monitor.nvml i w.state (k - i))).1.2 = some e0) :
    (enumerate V count i monitor w).1
      = (none, some (ErrorfV ("Failed to get device " ++ fmtD k ++ ": ") (some e0))) ∧
    (enumerate V count i monitor w).2.log
      = w.log ++ (List.range' i (k - i)).map (fetchOk monitor.nvml)
          ++ [fetchFailed monitor.nvml k e0] := by
  generalize hd : k - i = d at hacc hrej ⊢
  induction d generalizing i monitor w with
  | zero =>
    have hki : i = k := by omega
    subst hki
    simp only [stateAfterFetches] at hrej
    rw [enumerate_fail V count i monitor w hk e0 hrej]
    simp
  | succ d ih =>
    have hle : i ≤ count.val := by omega
    have h0 : (V.DeviceGetHandleByIndex monitor.nvml (toUint32 i) w.state).1.2 = none := by
      have := hacc 0 (Nat.succ_pos d)
      simpa [stateAfterFetches] using this
    rw [enumerate_step V count i monitor w hle h0]
    have hstep := ih (i + 1)
      { monitor with devices := monitor.devices ++
          [(V.DeviceGetHandleByIndex monitor.nvml (toUint32 i) w.state).1.1] }
      { state := (V.DeviceGetHandleByIndex monitor.nvml (toUint32 i) w.state).2,
        log := w.log ++ [fetchOk monitor.nvml i] }
      (by omega) (by omega)
      (by
        intro j hj
        have := hacc (j + 1) (by omega)
        simp only [stateAfterFetches] at this
        have hidx : i + 1 + j = i + (j + 1) := by omega
        rw [hidx]
        exact this)
      (by
        simp only [stateAfterFetches] at hrej
        exact hrej)
    refine ⟨hstep.1, ?_⟩
    rw [hstep.2]
    simp [List.range'_succ]

/-- C10.  Over a vendor interface that rejects the handle query for every index
at or above the count it reports, `NewNVGPUMonitor` never returns a monitor.
When the load, `Init` and `DeviceGetCount` succeed, with value `count`, and every
index below `count` is accepted when the loop fetches it (in the vendor state
the run has reached by then), the calls made are `New`, `Init`,
`DeviceGetCount`, then the handle fetches for `0, 1, ..., count` in order; the
last one fails, and the result is a nil monitor with an error whose message
is "Failed to get device N: " followed by the vendor's message, `N` being the
value `count`.  `Shutdown` is not called. -/
theorem C10_conforming_driver_never_constructs (V : Vendor σ) (hV : Conforming V)
    (dllPath : String) (w : World σ) :
    (NewNVGPUMonitor V dllPath w).1.1 = none ∧
    ∀ (n : Option API) (s1 s2 : σ) (count : Uint32) (s3 : σ),
      V.New dllPath w.state = ((n, none), s1) →
      V.Init n s1 = (none, s2) →
      V.DeviceGetCount n s2 = ((count, none), s3) →
      (∀ k, k < count.val →
        (V.DeviceGetHandleByIndex n (toUint32 k) (stateAfterFetches V n 0 s3 k)).1.2 = none) →
      ∃ e0 q, (NewNVGPUMonitor V dllPath w).1 = (none, some q) ∧
        q.Error = "Failed to get device " ++ fmtD count.val ++ ": " ++ e0.Error ∧
        (NewNVGPUMonitor V dllPath w).2.log
          = w.log ++ [{ call := .New dllPath, err := none }, { call := .Init n, err := none },
              { call := .DeviceGetCount n, err := none }]
            ++ (List.range' 0 count.val).map (fetchOk n) ++ [fetchFailed n count.val e0] ∧
        ∀ ev ∈ (NewNVGPUMonitor V dllPath w).2.log.drop w.log.length,
          ∀ recv, ev.call ≠ .Shutdown recv := by
  have hc : ∀ count : Uint32, toUint32 count.val = count := fun count =>
    Fin.ext (toUint32_val count.val count.isLt)
  constructor
  · rcases NewNVGPUMonitor_cases V dllPath w with
      ⟨n, e, s1, -, hr⟩ | ⟨n, s1, e, s2, c, s3, -, -, -, hr⟩ | ⟨n, s1, e, s2, s3, -, -, -, hr⟩ |
      ⟨n, s1, s2, count, e, s3, -, -, -, hr⟩ | ⟨n, s1, s2, count, s3, -, -, hC, hr⟩
    · rw [hr]
    · rw [hr]
    · rw [hr]
    · rw [hr]
    · rw [hr]
      rcases enumerate_spec V count 0 { nvml := n, devices := [], devicecount := count }
          { state := s3,
            log := w.log ++ [{ call := .New dllPath, err := none },
              { call := .Init n, err := none },
              { call := .DeviceGetCount n, err := none }] }
        with ⟨ds, -, -, -, h4⟩ | ⟨k, e0, -, -, h1, -, -, -⟩
      · exfalso
        obtain ⟨s, hs⟩ := h4 count.val (Nat.zero_le _) (le_refl _)
        have hrej := hV n s2 (by rw [hC]) n count s
        rw [hC] at hrej
        have := hrej (le_refl _)
        simp only [hc count] at hs
        rw [hs] at this
        simp at this
      · rw [h1]
  · intro n s1 s2 count s3 hNew hInit hCount hacc
    rw [NewNVGPUMonitor_reaches_loop V dllPath w n s1 s2 count s3 hNew hInit hCount]
    have hrej := hV n s2 (by rw [hCount]) n count (stateAfterFetches V n 0 s3 count.val)
    rw [hCount] at hrej
    obtain ⟨e0, he0⟩ := Option.isSome_iff_exists.mp (hrej (le_refl _))
    obtain ⟨h1, h3⟩ := enumerate_stops_at V count count.val (le_refl _) e0 0
      { nvml := n, devices := [], devicecount := count }
      { state := s3,
        log := w.log ++ [{ call := .New dllPath, err := none }, { call := .Init n, err := none },
          { call := .DeviceGetCount n, err := none }] }
      (Nat.zero_le _)
      (by
        intro j hj
        have := hacc j (by omega)
        simpa using this)
      (by simpa [hc count] using he0)
    simp only [Nat.sub_zero] at h3
    refine ⟨e0, _, h1, ?_, h3, ?_⟩
    · simp [ErrorfV, fmtV, GoError.Error, String.append_assoc]
    · rw [h3]
      intro ev hev recv
      simp [fetchOk, fetchFailed] at hev
      rcases hev with rfl | rfl | rfl | ⟨j, -, rfl⟩ | rfl <;> simp

/-- C10 at a driver with two devices whose queries are refused until `Init` has
run: it is conforming, indices 0 and 1 are accepted in the run (not in every
state), the fetches use indices 0, 1 and 2, the one at index 2 fails, and no
monitor is returned. -/
theorem C10_conforming_driver_never_constructs_witness :
    Conforming gatedDriver ∧
    (gatedDriver.DeviceGetHandleByIndex (some 1) 0 false).1.2 ≠ none ∧
    (NewNVGPUMonitor gatedDriver "nvml.dll" { state := false, log := [] }).1.1 = none ∧
    ∃ e0 q,
      (NewNVGPUMonitor gatedDriver "nvml.dll" { state := false, log := [] }).1 = (none, some q) ∧
      q.Error = "Failed to get device 2: " ++ e0.Error ∧
      (NewNVGPUMonitor gatedDriver "nvml.dll" { state := false, log := [] }).2.log
        = [{ call := .New "nvml.dll", err := none }, { call := .Init (some 1), err := none },
            { call := .DeviceGetCount (some 1), err := none },
            { call := .DeviceGetHandleByIndex (some 1) 0, err := none },
            { call := .DeviceGetHandleByIndex (some 1) 1, err := none },
            { call := .DeviceGetHandleByIndex (some 1) 2, err := some e0 }] := by
  have hconf : Conforming gatedDriver := by
    intro recv s hok recv' index s' hle
    cases s with
    | false => simp [gatedDriver] at hok
    | true =>
      have h2 : ¬ index.val < 2 := by
        have : (2 : Uint32).val = 2 := rfl
        simp only [gatedDriver, if_true] at hle
        omega
      cases s' <;> simp [gatedDriver, h2]
  have hthm := C10_conforming_driver_never_constructs gatedDriver hconf "nvml.dll"
    { state := false, log := [] }
  obtain ⟨e0, q, h1, h2, h3, -⟩ := hthm.2 (some 1) false true 2 true rfl rfl rfl (by
    intro k hk
    have hk2 : k < 2 := hk
    interval_cases k <;> rfl)
  exact ⟨hconf, by simp [gatedDriver], hthm.1, e0, q, h1, h2, h3⟩

end GoGPU
